import Mathlib

/-!
Shallow embedding of the Intel HEX parser / writer (intel_hex_parser.py).

Conventions of the embedding:
  * Python non-negative integers are Nat; the few places where Python can
    produce a negative intermediate value (record extents and record
    addresses inside the data-record generator) use Int, mirroring the
    source expressions exactly.
  * Python strings are List Char; slicing such as record[1:-2] is written
    with List.take and List.drop with the same index arithmetic.
  * The SortedDict of the source is a dict subclass plus a cached key
    list _keys, and the two can diverge: merge_data calls the built-in
    dict.pop, which bypasses the overridden __delitem__, so the popped key
    stays in _keys.  The model is therefore a structure of two fields: the
    underlying dict, modelled as an association list of its items kept in
    a canonical key order (no observable behaviour iterates the built-in
    dict directly), and the cached key list.  keys() reads the cache;
    membership tests, item lookup and the length read the dict; item
    assignment re-sorts the cache only when the dict itself lacks the key,
    exactly as __setitem__ does.
  * Fallible code returns Except Err; each raise site of the source is one
    Err constructor.  Uncaught Python runtime errors that the source can
    hit (IndexError on an empty record, NameError on an unbound type_str,
    ValueError inside int(), the bare Exception raised for a negative
    record address) are modelled as their own constructors, since they are
    observable outcomes distinct from the typed IOError raises.
  * The generator generate_data_records is modelled as a function
    returning the full list of yielded (record, applied_offset) pairs, or
    the first error raised.  Its while loop is driven by a fuel argument
    large enough for every terminating run of the source.
-/

/-- Every distinct failure outcome of the source, one constructor per raise
site (typed IOError / ValueError raises) plus the uncaught Python runtime
errors the source can produce. -/
inductive Err where
  /-- IOError: data record start address already present (merge_data). -/
  | duplicateAddress : Err
  /-- ValueError: data overlap found (merge_data). -/
  | overlap : Err
  /-- IOError: checksum of a line disagrees with its trailing byte. -/
  | checksumMismatch : Err
  /-- IOError: first character of a line is not a colon. -/
  | badLeadChar : Err
  /-- IOError: a record appears after the EOF record. -/
  | trailingAfterEof : Err
  /-- IOError: record type outside 0..5. -/
  | unknownRecordType : Err
  /-- IOError: record type illegal for the resolved format (strict mode). -/
  | illegalRecordType : Err
  /-- IOError: second start / entry point record (strict mode). -/
  | duplicateEntryPoint : Err
  /-- IOError: write requested with a format other than I32 / I16 while an
  entry point record had to be emitted. -/
  | unknownFormat : Err
  /-- IOError: entry point does not fit the I16 segment nibble. -/
  | entryPointRange : Err
  /-- ValueError: extended address offset outside the allowed space. -/
  | addressOutOfRange : Err
  /-- The bare Exception raised when a record address becomes negative in
  generate_data_records. -/
  | internalException : Err
  /-- Uncaught NameError: type_str unbound in extended_address_record when
  the format is neither I32 nor I16. -/
  | nameErr : Err
  /-- Uncaught ValueError from int() applied to an empty or non-hex string. -/
  | valueErr : Err
  /-- Uncaught KeyError: illegal_rec_types[hex_format] with a format that
  is neither I32 nor I16 after auto resolution, or a dict item lookup or
  dict.pop at a cached key the dict no longer holds. -/
  | keyErr : Err
  /-- Uncaught IndexError from record[0] when the stripped line is empty. -/
  | pyIndexError : Err
  /-- Loop budget of the modelled generator exhausted (the source would
  spin forever; never reached for the line lengths used here). -/
  | fuelOut : Err
deriving DecidableEq, Repr

/-- Uppercase hex digit character for a value below 16, as produced by the
Python format specifier X. -/
def hexDigitChar (n : Nat) : Char :=
  if n < 10 then Char.ofNat (48 + n) else Char.ofNat (55 + n)

/-- Digits of n in base 16, most significant first, fuel-driven so that it
reduces by rfl; fuel n + 1 always suffices. -/
def hexDigitsAux : Nat → Nat → List Char
  | 0, _ => []
  | fuel + 1, n =>
    if n < 16 then [hexDigitChar n]
    else hexDigitsAux fuel (n / 16) ++ [hexDigitChar (n % 16)]

/-- Digits of n in base 16, most significant first; 0 renders as one digit. -/
def hexDigits (n : Nat) : List Char := hexDigitsAux (n + 1) n

/-- Python format specifier 0wX: at least w uppercase hex digits, zero
padded on the left, more digits when the value needs them. -/
def formatHex (w n : Nat) : List Char :=
  List.replicate (w - (hexDigits n).length) '0' ++ hexDigits n

/-- Value of one hex digit character, as accepted by Python int(c, 16). -/
def hexVal? (c : Char) : Option Nat :=
  if '0' ≤ c ∧ c ≤ '9' then some (c.toNat - 48)
  else if 'A' ≤ c ∧ c ≤ 'F' then some (c.toNat - 55)
  else if 'a' ≤ c ∧ c ≤ 'f' then some (c.toNat - 87)
  else none

/-- Accumulator loop of parseHex?. -/
def parseHexAux : List Char → Nat → Option Nat
  | [], acc => some acc
  | c :: rest, acc =>
    match hexVal? c with
    | none => none
    | some v => parseHexAux rest (acc * 16 + v)

/-- Python int(s, 16): none models the ValueError raised on the empty
string or on a non-hex character. -/
def parseHex? (l : List Char) : Option Nat :=
  match l with
  | [] => none
  | _ => parseHexAux l 0

/-- split_string(text, 2) of the source: chunks of two characters, the last
chunk possibly a single character. -/
def split_string : List Char → List (List Char)
  | [] => []
  | [c] => [[c]]
  | c1 :: c2 :: rest => [c1, c2] :: split_string rest

/-- Elementwise parse of a chunk list; none as soon as one chunk fails. -/
def parseChunks? : List (List Char) → Option (List Nat)
  | [] => some []
  | ch :: rest =>
    match parseHex? ch, parseChunks? rest with
    | some v, some vs => some (v :: vs)
    | _, _ => none

/-- The list comprehension int(el, 16) for el in split_string(s, 2); none
models the ValueError on a malformed chunk. -/
def parsePairs? (l : List Char) : Option (List Nat) :=
  parseChunks? (split_string l)

/-- generate_checksum of the source: parse the hex pairs, sum, keep the low
byte and take the two complement.  The Python mask with 0xFF is written as
a remainder by 256. -/
def generate_checksum (semi : List Char) : Option Nat :=
  (parsePairs? semi).map (fun data => (((data.sum % 256) ^^^ 0xFF) + 1) % 256)

/-- Whitespace removal performed on every input line by
join(record.split()). -/
def strip_ws (l : List Char) : List Char := l.filter (fun c => !c.isWhitespace)

/-- The item list of the underlying built-in dict: an association list
from start address to byte list, kept in a canonical ascending key order
(nothing observable iterates the built-in dict directly, so the order is a
representation choice; the keys of the dict itself are genuinely unique). -/
abbrev RangeMap := List (Nat × List Nat)

/-- The SortedDict of the source: the underlying dict plus the cached key
list _keys.  dict.pop in merge_data bypasses the overridden __delitem__,
so after a forward merge the cache retains the popped key and the two
fields diverge. -/
structure SortedDict where
  entries : RangeMap
  cached_keys : List Nat
deriving DecidableEq, Repr

/-- SortedDict.keys() of the source: it returns the cached _keys list,
not the keys of the dict itself. -/
def keys (d : SortedDict) : List Nat := d.cached_keys

/-- The keys of the underlying dict itself: the in operator, the length
and super().keys() inside __setitem__ read these, not the cache. -/
def dict_keys (d : SortedDict) : List Nat := d.entries.map Prod.fst

/-- Dict item lookup data[k] (__getitem__ is not overridden); none models
the KeyError on a key the dict does not hold, reachable when a stale
cached key is handed back by find_lt or find_gt. -/
def getItem? : RangeMap → Nat → Option (List Nat)
  | [], _ => none
  | (a, b) :: rest, k => if k = a then some b else getItem? rest k

/-- Store into the underlying dict: update in place when the key exists,
otherwise insert at the canonical position. -/
def setEntry : RangeMap → Nat → List Nat → RangeMap
  | [], k, v => [(k, v)]
  | (a, b) :: rest, k, v =>
    if k < a then (k, v) :: (a, b) :: rest
    else if k = a then (k, v) :: rest
    else (a, b) :: setEntry rest k v

/-- Removal of a key from the underlying dict only, as the built-in
dict.pop does; the cached key list is deliberately left untouched, since
dict.pop bypasses the overridden __delitem__ of SortedDict. -/
def popEntry : RangeMap → Nat → RangeMap
  | [], _ => []
  | (a, b) :: rest, k => if k = a then rest else (a, b) :: popEntry rest k

/-- Insertion of a value into a sorted list, keeping duplicates. -/
def insert_sorted (k : Nat) : List Nat → List Nat
  | [] => [k]
  | a :: rest => if k ≤ a then k :: a :: rest else a :: insert_sorted k rest

/-- Python sorted() on a list of naturals: insertion sort, a sorted
permutation of the input (duplicates kept). -/
def pySorted : List Nat → List Nat
  | [] => []
  | a :: rest => insert_sorted a (pySorted rest)

/-- SortedDict.__setitem__ of the source: when the dict itself does not
hold the key, re-sort the cache with the key appended (a stale cached
occurrence of the same key does not prevent this, creating a duplicate in
the cache), then store into the dict. -/
def setItem (d : SortedDict) (k : Nat) (v : List Nat) : SortedDict :=
  { entries := setEntry d.entries k v,
    cached_keys := if k ∈ dict_keys d then d.cached_keys
                   else pySorted (d.cached_keys ++ [k]) }

/-- find_lt of the source: rightmost key value less than x of a sorted key
list, via bisect_left. -/
def find_lt : List Nat → Nat → Option Nat
  | [], _ => none
  | a :: rest, x =>
    if a < x then
      match find_lt rest x with
      | none => some a
      | some b => some b
    else none

/-- find_gt of the source: leftmost key value greater than x of a sorted
key list, via bisect_right. -/
def find_gt : List Nat → Nat → Option Nat
  | [], _ => none
  | a :: rest, x => if x < a then some a else find_gt rest x

/-- merge_data of the source: insert a new contiguous range into the data
map, merging with a touching predecessor and successor, rejecting
duplicate start addresses and overlaps.  The nearest neighbours are looked
up in the cached key list (data.keys()), while membership tests and item
lookups hit the dict itself; a stale cached neighbour therefore raises
KeyError at the prev_extent lookup or at data.pop.  The two mutation steps
of the source (append onto the predecessor, then overwrite the effective
key with new bytes plus the popped successor bytes) are reproduced
literally, dict.pop leaving the cache untouched. -/
def merge_data (data : SortedDict) (start : Nat) (bytes : List Nat) :
    Except Err SortedDict :=
  if data.entries.length = 0 then Except.ok (setItem data start bytes)
  else if start ∈ dict_keys data then Except.error Err.duplicateAddress
  else
    let prev_address := find_lt (keys data) start
    let next_address := find_gt (keys data) start
    match (match prev_address with
           | none => Except.ok none
           | some pa =>
             match getItem? data.entries pa with
             | none => Except.error Err.keyErr
             | some pb => Except.ok (some (pa, pb))) with
    | Except.error e => Except.error e
    | Except.ok prev_info =>
      let prev_overlap : Bool :=
        match prev_info with
        | none => false
        | some pv => decide (start < pv.1 + pv.2.length)
      let new_extent := start + bytes.length
      let next_overlap : Bool :=
        match next_address with
        | none => false
        | some na => decide (na < new_extent)
      if prev_overlap || next_overlap then Except.error Err.overlap
      else
        let step1 : SortedDict × Nat :=
          match prev_info with
          | none => (data, start)
          | some pv =>
            if pv.1 + pv.2.length = start
            then (setItem data pv.1 (pv.2 ++ bytes), pv.1)
            else (data, start)
        let d1 := step1.1
        let add_to := step1.2
        match (match next_address with
               | none => Except.ok d1
               | some na =>
                 if new_extent = na then
                   match getItem? d1.entries na with
                   | none => Except.error Err.keyErr
                   | some nb =>
                     Except.ok (setItem { d1 with entries := popEntry d1.entries na }
                       add_to (bytes ++ nb))
                 else Except.ok d1) with
        | Except.error e => Except.error e
        | Except.ok d2 =>
          if add_to ∈ dict_keys d2 then Except.ok d2
          else Except.ok (setItem d2 add_to bytes)

/-- extended_address_record of the source.  The shift and type string are
set only for I32 and I16; the overflow check runs before they are used, so
an unknown format errs with the modelled NameError only after passing the
overflow check, exactly as the source. -/
def extended_address_record (abs_offset : Nat) (hex_format : String) :
    Except Err (List Char) :=
  let params : Option (Nat × List Char) :=
    if hex_format = "I32" then some (16, ['0', '4'])
    else if hex_format = "I16" then some (4, ['0', '2'])
    else none
  if 0xFFFF <<< 16 < abs_offset then Except.error Err.addressOutOfRange
  else
    match params with
    | none => Except.error Err.nameErr
    | some (shift, type_str) =>
      let record0 := [':', '0', '2', '0', '0', '0', '0'] ++ type_str ++
        formatHex 4 (abs_offset >>> shift)
      match generate_checksum (record0.drop 1) with
      | none => Except.error Err.valueErr
      | some c => Except.ok (record0 ++ formatHex 2 c)

/-- Body of the while loop of generate_data_records, driven by fuel.  Each
iteration mirrors the source: clamp the record length to the remaining
bytes and the line length, compute the record extent (an Int, since the
source value can be negative), truncate when the extent passes 0x10000,
raise when the record address would be negative, emit the data record when
its length is positive, and emit an extension record afterwards when the
original extent passed 0x10000. -/
def gen_loop (start_address : Nat) (chunk : List Nat) (hex_format : String)
    (line_length : Nat) : Nat → Nat → Nat → Except Err (List (List Char × Nat))
  | 0, _, _ => Except.error Err.fuelOut
  | fuel + 1, index, applied_offset =>
    if index < chunk.length then
      let rec_length0 := min (chunk.length - index) line_length
      let rec_extent : Int :=
        (start_address : Int) + index + rec_length0 - applied_offset
      let rec_length := if 0x10000 < rec_extent
        then rec_length0 - (rec_extent - 0xFFFF).toNat
        else rec_length0
      if (start_address : Int) + index - applied_offset < 0 then
        Except.error Err.internalException
      else
        let address_str := formatHex 4 (start_address + index - applied_offset)
        let data_str :=
          (((chunk.drop index).take rec_length).map (fun el => formatHex 2 el)).flatten
        if 0 < rec_length then
          let record0 := [':'] ++ formatHex 2 rec_length ++ address_str ++
            ['0', '0'] ++ data_str
          match generate_checksum (record0.drop 1) with
          | none => Except.error Err.valueErr
          | some c =>
            let record := record0 ++ formatHex 2 c
            if 0x10000 < rec_extent then
              match extended_address_record (applied_offset + 0x10000) hex_format with
              | Except.error e => Except.error e
              | Except.ok ext =>
                match gen_loop start_address chunk hex_format line_length fuel
                    (index + rec_length) (applied_offset + 0x10000) with
                | Except.error e => Except.error e
                | Except.ok rest =>
                  Except.ok ((record, applied_offset) ::
                    (ext, applied_offset + 0x10000) :: rest)
            else
              match gen_loop start_address chunk hex_format line_length fuel
                  (index + rec_length) applied_offset with
              | Except.error e => Except.error e
              | Except.ok rest => Except.ok ((record, applied_offset) :: rest)
        else
          if 0x10000 < rec_extent then
            match extended_address_record (applied_offset + 0x10000) hex_format with
            | Except.error e => Except.error e
            | Except.ok ext =>
              match gen_loop start_address chunk hex_format line_length fuel
                  index (applied_offset + 0x10000) with
              | Except.error e => Except.error e
              | Except.ok rest =>
                Except.ok ((ext, applied_offset + 0x10000) :: rest)
          else gen_loop start_address chunk hex_format line_length fuel
            index applied_offset
    else Except.ok []

/-- generate_data_records of the source: the leading extended address
record when the start address lies outside the current window (note the
source divides by 0xFFFF), followed by the loop records.  The fuel bounds
the number of loop iterations of any terminating run. -/
def generate_data_records (start_address : Nat) (chunk : List Nat)
    (initial_offset : Nat) (hex_format : String) (line_length : Nat) :
    Except Err (List (List Char × Nat)) :=
  let fuel := chunk.length + (start_address + chunk.length) / 0x10000 + 2
  if initial_offset + 0xFFFF < start_address then
    let extra_offset := ((start_address - initial_offset) / 0xFFFF) <<< 16
    let offset := initial_offset + extra_offset
    match extended_address_record offset hex_format with
    | Except.error e => Except.error e
    | Except.ok ext =>
      match gen_loop start_address chunk hex_format line_length fuel 0 offset with
      | Except.error e => Except.error e
      | Except.ok rest => Except.ok ((ext, offset) :: rest)
  else
    gen_loop start_address chunk hex_format line_length fuel 0 initial_offset

/-- The in-memory image: the data SortedDict plus the optional entry
point.  The source compares images by entry point and dict equality (the
built-in mapping comparison, which ignores the cache). -/
structure Image where
  data : SortedDict
  entry_point : Option Nat
deriving DecidableEq, Repr

/-- The literal EOF record written at the end of every file. -/
def eof_record : List Char := [':', '0', '0', '0', '0', '0', '0', '0', '1', 'F', 'F']

/-- The inner part of the data loop of IntelHex.write: walk the key list
returned by data.keys() (the cache), look each key up in the dict itself
(a stale cached key raises KeyError), generate the records of each range,
and thread the applied offset of the last emitted record into the next
range. -/
def write_data_go : List Nat → SortedDict → String → Nat → Nat →
    Except Err (List (List Char) × Nat)
  | [], _, _, _, offset => Except.ok ([], offset)
  | start :: rest, d, fmt, ll, offset =>
    match getItem? d.entries start with
    | none => Except.error Err.keyErr
    | some chunk =>
      match generate_data_records start chunk offset fmt ll with
      | Except.error e => Except.error e
      | Except.ok pairs =>
        let new_offset := (pairs.map Prod.snd).getLastD offset
        match write_data_go rest d fmt ll new_offset with
        | Except.error e => Except.error e
        | Except.ok (recs, final) =>
          Except.ok (pairs.map Prod.fst ++ recs, final)

/-- The data loop of IntelHex.write over the cached key list. -/
def write_data (d : SortedDict) (fmt : String) (ll : Nat) (offset : Nat) :
    Except Err (List (List Char) × Nat) :=
  write_data_go (keys d) d fmt ll offset

/-- IntelHex.write: data records, then the entry point record when an
entry point exists (this is the only place the target format is
validated), then the literal EOF record.  The Python mask with 0xFFFF is
written as a remainder by 0x10000. -/
def write (img : Image) (hex_format : String) (line_length : Nat) :
    Except Err (List (List Char)) :=
  match write_data img.data hex_format line_length 0 with
  | Except.error e => Except.error e
  | Except.ok (recs, _) =>
    match img.entry_point with
    | none => Except.ok (recs ++ [eof_record])
    | some ep =>
      if hex_format = "I32" then
        let er := [':', '0', '4', '0', '0', '0', '0', '0', '5'] ++ formatHex 8 ep
        match generate_checksum (er.drop 1) with
        | none => Except.error Err.valueErr
        | some c => Except.ok (recs ++ [er ++ formatHex 2 c] ++ [eof_record])
      else if hex_format = "I16" then
        let segment := ep >>> 16
        if 0xF < segment then Except.error Err.entryPointRange
        else
          let word := ((segment <<< 12) <<< 16) ||| (ep % 0x10000)
          let er := [':', '0', '4', '0', '0', '0', '0', '0', '3'] ++ formatHex 8 word
          match generate_checksum (er.drop 1) with
          | none => Except.error Err.valueErr
          | some c => Except.ok (recs ++ [er ++ formatHex 2 c] ++ [eof_record])
      else Except.error Err.unknownFormat

/-- State carried through parse_file, one field per local of the source. -/
structure ParseState where
  hex_format : String
  data : SortedDict
  encountered_eof : Bool
  address_offset : Nat
  entry_point : Option Nat
deriving DecidableEq, Repr

/-- Auto detection: the unique format that does not list this record type
among its illegal types (types 2 and 3 resolve I16, types 4 and 5 resolve
I32). -/
def resolve_format (fmt : String) (rec_type : Nat) : String :=
  if fmt = "auto" then (if rec_type = 2 ∨ rec_type = 3 then "I16" else "I32")
  else fmt

/-- Membership of rec_type in illegal_rec_types[fmt]; the error models the
KeyError raised when fmt is neither I32 nor I16. -/
def illegal_for (fmt : String) (rec_type : Nat) : Except Err Bool :=
  if fmt = "I32" then Except.ok (decide (rec_type = 2 ∨ rec_type = 3))
  else if fmt = "I16" then Except.ok (decide (rec_type = 4 ∨ rec_type = 5))
  else Except.error Err.keyErr

/-- One iteration of the parse_file loop on one input line: strip the
whitespace, reject records after EOF, check the leading colon (an empty
record hits the modelled IndexError first), validate the checksum, decode
the fields, resolve the format and check type legality, then dispatch on
the record type. -/
def process_record (strict : Bool) (st : ParseState) (line : List Char) :
    Except Err ParseState :=
  let record := strip_ws line
  if st.encountered_eof then Except.error Err.trailingAfterEof
  else match record with
  | [] => Except.error Err.pyIndexError
  | c0 :: _ =>
    if c0 = ':' then
      match parseHex? (record.drop (record.length - 2)),
            generate_checksum ((record.take (record.length - 2)).drop 1) with
      | some given, some computed =>
        if given = computed then
          match parseHex? ((record.drop 1).take 2),
                parseHex? ((record.drop 3).take 4),
                parseHex? ((record.drop 7).take 2) with
          | some byte_count, some rec_address, some rec_type =>
            let fmt_step : Except Err String :=
              if 2 ≤ rec_type ∧ rec_type < 6 then
                let fmt1 := resolve_format st.hex_format rec_type
                match illegal_for fmt1 rec_type with
                | Except.error e => Except.error e
                | Except.ok ill =>
                  if ill && strict then Except.error Err.illegalRecordType
                  else Except.ok fmt1
              else Except.ok st.hex_format
            match fmt_step with
            | Except.error e => Except.error e
            | Except.ok fmt1 =>
              let slice := (record.drop 9).take (2 * byte_count)
              if rec_type ≤ 1 then
                match parsePairs? slice with
                | none => Except.error Err.valueErr
                | some rec_bytes =>
                  if rec_type = 0 then
                    match merge_data st.data (st.address_offset + rec_address)
                        rec_bytes with
                    | Except.error e => Except.error e
                    | Except.ok d2 =>
                      Except.ok { st with hex_format := fmt1, data := d2 }
                  else
                    Except.ok { st with hex_format := fmt1, encountered_eof := true }
              else
                match parseHex? slice with
                | none => Except.error Err.valueErr
                | some val =>
                  if rec_type = 2 then
                    Except.ok { st with hex_format := fmt1, address_offset := val <<< 4 }
                  else if rec_type = 3 then
                    if st.entry_point.isSome && strict then
                      Except.error Err.duplicateEntryPoint
                    else
                      Except.ok { st with hex_format := fmt1, entry_point := some (((val >>> 16) <<< 4) + val % 0x10000) }
                  else if rec_type = 4 then
                    Except.ok { st with hex_format := fmt1, address_offset := val <<< 16 }
                  else if rec_type = 5 then
                    if st.entry_point.isSome && strict then
                      Except.error Err.duplicateEntryPoint
                    else
                      Except.ok { st with hex_format := fmt1, entry_point := some val }
                  else Except.error Err.unknownRecordType
          | _, _, _ => Except.error Err.valueErr
        else Except.error Err.checksumMismatch
      | _, _ => Except.error Err.valueErr
    else Except.error Err.badLeadChar

/-- The enumerate loop of parse_file over all input lines. -/
def parse_lines (strict : Bool) : List (List Char) → ParseState →
    Except Err ParseState
  | [], st => Except.ok st
  | l :: rest, st =>
    match process_record strict st l with
    | Except.error e => Except.error e
    | Except.ok st2 => parse_lines strict rest st2

/-- parse_file of the source: fold the lines over the initial state and
return the data map, the entry point and the (possibly auto detected)
format. -/
def parse_file (lines : List (List Char)) (hex_format : String) (strict : Bool) :
    Except Err (SortedDict × Option Nat × String) :=
  match parse_lines strict lines ⟨hex_format, ⟨[], []⟩, false, 0, none⟩ with
  | Except.error e => Except.error e
  | Except.ok st => Except.ok (st.data, st.entry_point, st.hex_format)

/-- Injection of Except into a sum type, used to derive decidable
equality for results. -/
def exceptToSum {e a : Type} : Except e a → e ⊕ a
  | Except.error x => Sum.inl x
  | Except.ok x => Sum.inr x

instance {e a : Type} [DecidableEq e] [DecidableEq a] : DecidableEq (Except e a) :=
  fun x y =>
    decidable_of_iff (exceptToSum x = exceptToSum y)
      (by cases x <;> cases y <;> simp [exceptToSum])

/-- The ASCII bytes of the scenario payload. -/
def hello_bytes : List Nat :=
  [72, 101, 108, 108, 111, 44, 32, 119, 111, 114, 108, 100, 33]

/-- Checksum value of the truncated one-payload-byte line family used for
the truncation behaviour of the decoder. -/
def c7_cks (b : Nat) : Nat := ((((10 + b) % 256) ^^^ 0xFF) + 1) % 256

/-- A line that declares ten payload bytes but carries one payload byte
and a consistent trailing checksum: shorter than its declared fields
require. -/
def c7_line (b : Nat) : List Char :=
  (":0A000000").toList ++ formatHex 2 b ++ formatHex 2 (c7_cks b)

theorem hexDigitsAux_length_le : ∀ (fuel n k : Nat), 1 ≤ k → n < 16 ^ k →
    (hexDigitsAux fuel n).length ≤ k
  | 0, n, k, hk, h => by simp [hexDigitsAux]
  | fuel + 1, n, k, hk, h => by
    simp only [hexDigitsAux]
    split_ifs with h1
    · simpa using hk
    · match k, hk with
      | 1, _ => exact absurd h (by simpa using h1)
      | k + 2, _ =>
        rw [List.length_append]
        simp only [List.length_singleton]
        have h2 : n / 16 < 16 ^ (k + 1) := by
          rw [Nat.div_lt_iff_lt_mul (by norm_num)]
          calc n < 16 ^ (k + 2) := h
          _ = 16 ^ (k + 1) * 16 := by ring
        have h3 := hexDigitsAux_length_le fuel (n / 16) (k + 1) (by omega) h2
        omega

theorem hexDigitsAux_length_ge : ∀ (fuel n k : Nat), n < fuel → 16 ^ k ≤ n →
    k + 1 ≤ (hexDigitsAux fuel n).length
  | 0, _, _, hf, _ => by omega
  | fuel + 1, n, k, hf, h => by
    simp only [hexDigitsAux]
    split_ifs with h1
    · match k with
      | 0 => simp
      | k + 1 =>
        exfalso
        have h2 : 16 ≤ 16 ^ (k + 1) := Nat.le_self_pow (by omega) 16
        omega
    · match k with
      | 0 =>
        rw [List.length_append]
        simp only [List.length_singleton]
        omega
      | k + 1 =>
        rw [List.length_append]
        simp only [List.length_singleton]
        have h2 : 16 ^ k ≤ n / 16 := by
          rw [Nat.le_div_iff_mul_le (by norm_num)]
          calc 16 ^ k * 16 = 16 ^ (k + 1) := by ring
          _ ≤ n := h
        have h3 : n / 16 < fuel := by
          have h4 : n / 16 < n := Nat.div_lt_self (by omega) (by norm_num)
          omega
        have h5 := hexDigitsAux_length_ge fuel (n / 16) k h3 h2
        omega

theorem formatHex_length_eq {w n : Nat} (hw : 1 ≤ w) (h : n < 16 ^ w) :
    (formatHex w n).length = w := by
  have h1 : (hexDigits n).length ≤ w := hexDigitsAux_length_le (n + 1) n w hw h
  simp only [formatHex, List.length_append, List.length_replicate]
  omega

theorem formatHex_length_gt {w n : Nat} (h : 16 ^ w ≤ n) :
    w < (formatHex w n).length := by
  have h1 : w + 1 ≤ (hexDigits n).length :=
    hexDigitsAux_length_ge (n + 1) n w (by omega) h
  simp only [formatHex, List.length_append, List.length_replicate]
  omega

theorem mem_hexDigitsAux : ∀ {fuel n : Nat} {c : Char}, c ∈ hexDigitsAux fuel n →
    ∃ e, e < 16 ∧ c = hexDigitChar e := by
  intro fuel
  induction fuel with
  | zero => intro n c h; simp [hexDigitsAux] at h
  | succ f ih =>
    intro n c h
    simp only [hexDigitsAux] at h
    split_ifs at h with h1
    · rw [List.mem_singleton] at h
      exact ⟨n, h1, h⟩
    · rw [List.mem_append, List.mem_singleton] at h
      rcases h with h2 | h2
      · exact ih h2
      · exact ⟨n % 16, Nat.mod_lt _ (by norm_num), h2⟩

theorem mem_formatHex {w n : Nat} {c : Char} (h : c ∈ formatHex w n) :
    ∃ e, e < 16 ∧ c = hexDigitChar e := by
  simp only [formatHex, List.mem_append] at h
  rcases h with h1 | h1
  · refine ⟨0, by norm_num, ?_⟩
    rw [List.eq_of_mem_replicate h1]
    decide
  · exact mem_hexDigitsAux h1

theorem hexVal_digitChar : ∀ e, e < 16 → hexVal? (hexDigitChar e) = some e := by
  intro e he
  interval_cases e <;> decide

theorem parseHexAux_isSome : ∀ {l : List Char},
    (∀ c ∈ l, ∃ e, e < 16 ∧ c = hexDigitChar e) →
    ∀ acc, (parseHexAux l acc).isSome := by
  intro l
  induction l with
  | nil => intro h acc; simp [parseHexAux]
  | cons c t ih =>
    intro h acc
    obtain ⟨e, he, hc⟩ := h c (List.mem_cons_self _ _)
    simp only [parseHexAux, hc, hexVal_digitChar e he]
    exact ih (fun c2 hc2 => h c2 (List.mem_cons_of_mem _ hc2)) _

theorem parseHex_isSome : ∀ {l : List Char}, l ≠ [] →
    (∀ c ∈ l, ∃ e, e < 16 ∧ c = hexDigitChar e) → (parseHex? l).isSome := by
  intro l hne h
  match l, hne with
  | c :: t, _ => exact parseHexAux_isSome h 0

theorem mem_split_string : ∀ (l : List Char) (ch : List Char), ch ∈ split_string l →
    ch ≠ [] ∧ ∀ c ∈ ch, c ∈ l
  | [], ch, h => by simp [split_string] at h
  | [c1], ch, h => by
    simp only [split_string, List.mem_singleton] at h
    subst h
    refine ⟨by simp, ?_⟩
    intro c hc
    simpa using hc
  | c1 :: c2 :: rest, ch, h => by
    simp only [split_string, List.mem_cons] at h
    rcases h with h1 | h1
    · subst h1
      refine ⟨by simp, ?_⟩
      intro c hc
      rcases List.mem_cons.mp hc with rfl | hc2
      · exact List.mem_cons_self _ _
      · rw [List.mem_singleton] at hc2
        subst hc2
        exact List.mem_cons_of_mem _ (List.mem_cons_self _ _)
    · obtain ⟨hne, hmem⟩ := mem_split_string rest ch h1
      exact ⟨hne, fun c hc =>
        List.mem_cons_of_mem _ (List.mem_cons_of_mem _ (hmem c hc))⟩

theorem parseChunks_isSome : ∀ {xs : List (List Char)},
    (∀ x ∈ xs, (parseHex? x).isSome) → (parseChunks? xs).isSome := by
  intro xs
  induction xs with
  | nil => intro h; simp [parseChunks?]
  | cons x t ih =>
    intro h
    obtain ⟨y, hy⟩ := Option.isSome_iff_exists.mp (h x (List.mem_cons_self _ _))
    obtain ⟨ys, hys⟩ := Option.isSome_iff_exists.mp
      (ih (fun z hz => h z (List.mem_cons_of_mem _ hz)))
    simp [parseChunks?, hy, hys]

theorem parsePairs_isSome {l : List Char}
    (h : ∀ c ∈ l, ∃ e, e < 16 ∧ c = hexDigitChar e) : (parsePairs? l).isSome := by
  rw [parsePairs?]
  apply parseChunks_isSome
  intro ch hch
  obtain ⟨hne, hmem⟩ := mem_split_string l ch hch
  exact parseHex_isSome hne (fun c hc => h c (hmem c hc))

theorem generate_checksum_isSome {l : List Char}
    (h : ∀ c ∈ l, ∃ e, e < 16 ∧ c = hexDigitChar e) :
    (generate_checksum l).isSome := by
  rw [generate_checksum]
  obtain ⟨v, hv⟩ := Option.isSome_iff_exists.mp (parsePairs_isSome h)
  simp [hv]

theorem generate_checksum_lt {l : List Char} {c : Nat}
    (h : generate_checksum l = some c) : c < 256 := by
  rw [generate_checksum] at h
  rcases hv : parsePairs? l with _ | v <;> rw [hv] at h
  · cases h
  · simp only [Option.map_some'] at h
    injection h with h2
    rw [← h2]
    exact Nat.mod_lt _ (by norm_num)

theorem ext_record_shape_I32 (off : Nat) (hof : ¬ 0xFFFF <<< 16 < off) :
    ∃ r, extended_address_record off "I32" = Except.ok r ∧
      r.length = 11 + (formatHex 4 (off >>> 16)).length := by
  simp only [extended_address_record, if_neg hof, if_true]
  have hdig : ∀ c ∈ ('0' :: '2' :: '0' :: '0' :: '0' :: '0' :: '0' :: '4' ::
      formatHex 4 (off >>> 16)), ∃ e, e < 16 ∧ c = hexDigitChar e := by
    intro c hc
    simp only [List.mem_cons] at hc
    rcases hc with rfl | rfl | rfl | rfl | rfl | rfl | rfl | rfl | h1
    · exact ⟨0, by norm_num, by decide⟩
    · exact ⟨2, by norm_num, by decide⟩
    · exact ⟨0, by norm_num, by decide⟩
    · exact ⟨0, by norm_num, by decide⟩
    · exact ⟨0, by norm_num, by decide⟩
    · exact ⟨0, by norm_num, by decide⟩
    · exact ⟨0, by norm_num, by decide⟩
    · exact ⟨4, by norm_num, by decide⟩
    · exact mem_formatHex h1
  obtain ⟨c, hc⟩ := Option.isSome_iff_exists.mp (generate_checksum_isSome hdig)
  rw [show (([':', '0', '2', '0', '0', '0', '0'] ++ ['0', '4'] ++
      formatHex 4 (off >>> 16)).drop 1) = ('0' :: '2' :: '0' :: '0' :: '0' ::
      '0' :: '0' :: '4' :: formatHex 4 (off >>> 16)) from rfl, hc]
  refine ⟨_, rfl, ?_⟩
  have hclt : c < 256 := generate_checksum_lt hc
  have hc2 : (formatHex 2 c).length = 2 :=
    formatHex_length_eq (by norm_num) (by norm_num; omega)
  simp only [List.append_assoc, List.length_append, List.cons_append,
    List.length_cons, List.length_nil, hc2]
  omega

theorem ext_record_shape_I16 (off : Nat) (hof : ¬ 0xFFFF <<< 16 < off) :
    ∃ r, extended_address_record off "I16" = Except.ok r ∧
      r.length = 11 + (formatHex 4 (off >>> 4)).length := by
  simp only [extended_address_record, if_neg hof, if_true, if_false]
  rw [if_neg (by decide : ¬ ("I16" : String) = "I32")]
  dsimp only
  have hdig : ∀ c ∈ ('0' :: '2' :: '0' :: '0' :: '0' :: '0' :: '0' :: '2' ::
      formatHex 4 (off >>> 4)), ∃ e, e < 16 ∧ c = hexDigitChar e := by
    intro c hc
    simp only [List.mem_cons] at hc
    rcases hc with rfl | rfl | rfl | rfl | rfl | rfl | rfl | rfl | h1
    · exact ⟨0, by norm_num, by decide⟩
    · exact ⟨2, by norm_num, by decide⟩
    · exact ⟨0, by norm_num, by decide⟩
    · exact ⟨0, by norm_num, by decide⟩
    · exact ⟨0, by norm_num, by decide⟩
    · exact ⟨0, by norm_num, by decide⟩
    · exact ⟨0, by norm_num, by decide⟩
    · exact ⟨2, by norm_num, by decide⟩
    · exact mem_formatHex h1
  obtain ⟨c, hc⟩ := Option.isSome_iff_exists.mp (generate_checksum_isSome hdig)
  rw [show (([':', '0', '2', '0', '0', '0', '0'] ++ ['0', '2'] ++
      formatHex 4 (off >>> 4)).drop 1) = ('0' :: '2' :: '0' :: '0' :: '0' ::
      '0' :: '0' :: '2' :: formatHex 4 (off >>> 4)) from rfl, hc]
  refine ⟨_, rfl, ?_⟩
  have hclt : c < 256 := generate_checksum_lt hc
  have hc2 : (formatHex 2 c).length = 2 :=
    formatHex_length_eq (by norm_num) (by norm_num; omega)
  simp only [List.append_assoc, List.length_append, List.cons_append,
    List.length_cons, List.length_nil, hc2]
  omega

/-- C8: extended_address_record fails with AddressOutOfRange exactly when
the offset exceeds 0xFFFF shifted left by 16, for both formats; otherwise
it succeeds, the I32 record always has the normal fifteen characters (the
payload fits sixteen bits), while the I16 record has fifteen characters
exactly when the offset is at most 0xFFFFF — for larger representable
offsets the shifted payload exceeds sixteen bits and widens the field. -/
theorem C8_extended_address_record (off : Nat) :
    (0xFFFF <<< 16 < off →
      extended_address_record off "I32" = Except.error Err.addressOutOfRange ∧
      extended_address_record off "I16" = Except.error Err.addressOutOfRange) ∧
    (off ≤ 0xFFFF <<< 16 →
      (∃ r, extended_address_record off "I32" = Except.ok r ∧ r.length = 15) ∧
      (∃ r, extended_address_record off "I16" = Except.ok r ∧
        (r.length = 15 ↔ off ≤ 0xFFFFF))) := by
  constructor
  · intro hgt
    constructor <;> simp only [extended_address_record, if_pos hgt]
  · intro hle
    have hof : ¬ 0xFFFF <<< 16 < off := by omega
    constructor
    · obtain ⟨r, hr, hlen⟩ := ext_record_shape_I32 off hof
      refine ⟨r, hr, ?_⟩
      have hv : off >>> 16 < 16 ^ 4 := by
        rw [Nat.shiftRight_eq_div_pow]
        rw [Nat.div_lt_iff_lt_mul (by norm_num : 0 < 2 ^ 16)]
        rw [Nat.shiftLeft_eq] at hle
        norm_num at hle ⊢
        omega
      rw [hlen, formatHex_length_eq (by norm_num) hv]
    · obtain ⟨r, hr, hlen⟩ := ext_record_shape_I16 off hof
      refine ⟨r, hr, ?_⟩
      rw [hlen]
      constructor
      · intro h15
        by_contra hgt2
        push_neg at hgt2
        have h2 : 16 ^ 4 ≤ off >>> 4 := by
          rw [Nat.shiftRight_eq_div_pow]
          rw [Nat.le_div_iff_mul_le (by norm_num : 0 < 2 ^ 4)]
          norm_num
          omega
        have h3 := formatHex_length_gt h2
        omega
      · intro hsm
        have hv : off >>> 4 < 16 ^ 4 := by
          rw [Nat.shiftRight_eq_div_pow]
          rw [Nat.div_lt_iff_lt_mul (by norm_num : 0 < 2 ^ 4)]
          norm_num
          omega
        rw [formatHex_length_eq (by norm_num) hv]

/-- Closed instance of C8 at a representable offset: the I32 record of
offset 0x20000 is produced with the normal fifteen characters. -/
theorem C8_extended_address_record_witness :
    0x20000 ≤ 0xFFFF <<< 16 ∧
    (∃ r, extended_address_record 0x20000 "I32" = Except.ok r ∧
      r.length = 15) := by
  have h := (C8_extended_address_record 0x20000).2 (by decide)
  exact ⟨by decide, h.1⟩

/-- C8 counterexample to the claim as stated: at offset 0x100000, which is
within the checked bound, the I16 record is produced with a sixteen
character record whose payload field does not fit four hex digits. -/
theorem C8_extended_address_record_cex :
    extended_address_record 0x100000 "I16" =
      Except.ok ((":0200000210000EC").toList) ∧
    ((":0200000210000EC").toList).length = 16 ∧
    0x100000 ≤ 0xFFFF <<< 16 := by
  refine ⟨by rfl, by decide, by decide⟩

/-- C1: the claimed round trip fails on the code: an image whose single
range starts at 0x1FFFE is representable in I32, yet write raises the
internal Exception of generate_data_records (the extended address rounding
divides by 0xFFFF instead of 0x10000, overshooting the window so the
record address would be negative), so no round trip exists. -/
theorem C1_round_trip_write_crash :
    write ⟨⟨[(0x1FFFE, [0xAB])], [0x1FFFE]⟩, none⟩ "I32" 16 =
      Except.error Err.internalException := by rfl

/-- C2: inserting a range that touches its predecessor and successor does
not concatenate the three byte lists: the final assignment overwrites the
already merged predecessor entry with only the new plus successor bytes,
so the predecessor byte 1 is lost and the result differs from the claimed
concatenation. -/
theorem C2_double_merge_loses_predecessor_bytes :
    merge_data ⟨[(0, [1]), (2, [3])], [0, 2]⟩ 1 [2] =
      Except.ok ⟨[(0, [2, 3])], [0, 2]⟩ ∧
    [(0, ([2, 3] : List Nat))] ≠ [(0, ([1] ++ [2] ++ [3] : List Nat))] := by
  refine ⟨by rfl, by decide⟩

/-- C3: a 32 byte chunk starting ten bytes before the 64KiB boundary under
I32 encoding does not produce the claimed straddling records: the chunk is
truncated one byte short of the boundary (rec_extent minus 0xFFFF instead
of 0x10000), the offset then advances past the stranded byte, and the next
record address goes negative, raising the internal Exception. -/
theorem C3_window_straddle_crash :
    generate_data_records 0xFFF6 (List.range 32) 0 "I32" 16 =
      Except.error Err.internalException := by rfl

/-- C4: with start address 0x1FFFE and initial offset 0, the leading
extended address record is emitted first as claimed, but the rounding by
0xFFFF advances the running offset to 0x20000, which lies beyond the start
address, so the 64KiB window positioning of the claim fails. -/
theorem C4_offset_overshoots_window :
    generate_data_records 0x1FFFE [] 0 "I32" 16 =
      Except.ok [((":020000040002F8").toList, 0x20000)] ∧
    0xFFFF < 0x1FFFE ∧ 0x1FFFE < 0x20000 := by
  refine ⟨by rfl, by decide, by decide⟩

/-- C5 counterexample: the exact input of the claim fails on its first
line with a checksum mismatch (the stated trailing byte FA differs from
the computed value 50), so the parse does not succeed. -/
theorem C5_scenario_cex :
    parse_file [(":0200000400AAFA").toList,
      (":0A00000048656C6C6F2C20776F726C6421").toList,
      (":00000001FF").toList] "auto" false =
    Except.error Err.checksumMismatch := by rfl

/-- C5 amended: with the corrected byte count 0x0D and correct checksums
(50 and 6A), auto detection resolves I32 and the parse returns no entry
point and a single range at 0xAA0000 holding the ASCII bytes of the
thirteen character greeting. -/
theorem C5_scenario_amended :
    parse_file [(":0200000400AA50").toList,
      (":0D00000048656C6C6F2C20776F726C64216A").toList,
      (":00000001FF").toList] "auto" false =
      Except.ok (⟨[(0xAA0000, hello_bytes)], [0xAA0000]⟩, none, "I32") ∧
    hello_bytes = (("Hello, world!").toList).map Char.toNat := by
  refine ⟨by rfl, by decide⟩

/-- C6 counterexample: serialization with the invalid target format auto
completes successfully for an image without an entry point, writing the
data record and the EOF record, so the claimed unconditional
InvalidTargetFormat failure does not happen. -/
theorem C6_write_succeeds_without_entry_point :
    write ⟨⟨[(0, [0xAB])], [0]⟩, none⟩ "auto" 16 =
      Except.ok [(":01000000AB54").toList, eof_record] := by rfl

/-- C6 amended: the target format is only validated when an entry point
record must be emitted.  Whenever the data records themselves are written
successfully, write with a format that is neither I32 nor I16 succeeds for
an image without entry point and fails with the unknown format error
exactly when an entry point is present. -/
theorem C6_unknown_format_only_with_entry_point (img : Image) (fmt : String)
    (ll : Nat) (pr : List (List Char) × Nat)
    (h32 : fmt ≠ "I32") (h16 : fmt ≠ "I16")
    (hdata : write_data img.data fmt ll 0 = Except.ok pr) :
    (img.entry_point = none →
      write img fmt ll = Except.ok (pr.1 ++ [eof_record])) ∧
    (∀ ep, img.entry_point = some ep →
      write img fmt ll = Except.error Err.unknownFormat) := by
  obtain ⟨recs, off⟩ := pr
  constructor
  · intro hep
    rw [write, hdata, hep]
  · intro ep hep
    rw [write, hdata, hep]
    simp only [if_neg h32, if_neg h16]

/-- Closed instance of the amended C6: an image with entry point and one
small range fails with the unknown format error under the target auto. -/
theorem C6_unknown_format_witness :
    write ⟨⟨[(0, [0xAB])], [0]⟩, some 5⟩ "auto" 16 =
      Except.error Err.unknownFormat :=
  (C6_unknown_format_only_with_entry_point ⟨⟨[(0, [0xAB])], [0]⟩, some 5⟩
    "auto" 16 ([(":01000000AB54").toList], 0) (by decide) (by decide)
    (by rfl)).2 5 rfl

/-- C7 counterexample: a line that declares ten payload bytes but is
thirteen characters long (shorter than the thirty one required) passes the
self referential checksum test and is silently decoded into a two byte
range, the second byte being the checksum characters themselves; no
MalformedRecord style error is raised. -/
theorem C7_truncated_line_cex :
    parse_file [(":0A00000048AE").toList] "auto" false =
      Except.ok (⟨[(0, [0x48, 0xAE])], [0]⟩, none, "auto") ∧
    ((":0A00000048AE").toList).length < 1 + 2 + 4 + 2 + 2 * 0x0A + 2 := by
  refine ⟨by rfl, by decide⟩

set_option maxHeartbeats 4000000 in
set_option maxRecDepth 100000 in
/-- C7 amended: the decoder performs no length validation at all.  For
every payload byte value, the truncated thirteen character line that
declares ten payload bytes but carries one, followed by a consistent
checksum, parses successfully into a two byte range (the checksum pair is
consumed as data), instead of failing with a malformed record error. -/
theorem C7_no_truncation_check : ∀ b : Fin 256,
    parse_file [c7_line b.val] "auto" false =
      Except.ok (⟨[(0, [b.val, c7_cks b.val])], [0]⟩, none, "auto") ∧
    (c7_line b.val).length < 1 + 2 + 4 + 2 + 2 * 0x0A + 2 := by decide

/-- C9: the claimed invariant preservation fails on the code.  Starting
from the empty map, the four calls insert (0, [1, 2]), (3, [5]), (2, [4])
and (3, [8]) all return without error, yet afterwards keys() is
[0, 3, 3]: no longer unique.  The third call merges in both directions and
its dict.pop of key 3 bypasses the overridden __delitem__, leaving the
stale key 3 in the cache; the fourth call then misses the duplicate (the
membership test reads the dict, which no longer holds 3) and __setitem__
appends 3 to the cache a second time. -/
theorem C9_stale_cached_keys_break_invariant :
    (merge_data ⟨[], []⟩ 0 [1, 2] >>= fun d1 =>
     merge_data d1 3 [5] >>= fun d2 =>
     merge_data d2 2 [4] >>= fun d3 =>
     merge_data d3 3 [8]) =
      Except.ok ⟨[(0, [4, 5]), (3, [8])], [0, 3, 3]⟩ ∧
    ¬ (keys ⟨[(0, [4, 5]), (3, [8])], [0, 3, 3]⟩).Nodup := by
  refine ⟨by rfl, by decide⟩

/-- C10: a line that is empty after whitespace removal, reached before any
EOF record, makes parse fail with the modelled IndexError of the
record[0] access, which is not the MalformedRecord error of the leading
character check: that error branch is not total over all lines. -/
theorem C10_empty_line_index_error (strict : Bool) (st : ParseState)
    (line : List Char) (heof : st.encountered_eof = false)
    (hempty : strip_ws line = []) :
    process_record strict st line = Except.error Err.pyIndexError ∧
    Err.pyIndexError ≠ Err.badLeadChar := by
  refine ⟨?_, by decide⟩
  simp only [process_record, hempty, heof]
  simp

/-- Closed instance of C10 on a line of one space character. -/
theorem C10_empty_line_witness :
    process_record false ⟨"auto", ⟨[], []⟩, false, 0, none⟩ [' '] =
      Except.error Err.pyIndexError :=
  (C10_empty_line_index_error false ⟨"auto", ⟨[], []⟩, false, 0, none⟩ [' ']
    rfl (by decide)).1
